import Mathlib

/-!
Verification of the socket-tagging core of `netd/BpfHandler.cpp`
(Android Connectivity module): the attribution map operations
`tagSocket` / `untagSocket`, the delegation gate
`hasUpdateDeviceStatsPermission`, and the platform/kernel support rules
of `initPrograms`, shallowly embedded as pure Lean functions.

External effects (getsockopt results, the socket cookie, the outcomes of
BPF map reads/writes) are supplied as explicit oracle fields of the
state / per-call records, so each C++ control path corresponds to a
branch of the Lean function.
-/

/-! ## Constants

Numeric constants used by `BpfHandler.cpp`.  The AID values come from
`android_filesystem_config.h`, `PER_USER_RANGE` from
`netdutils/UidConstants.h`, the errno values from Linux, and the map
selectors / permission bit from the module's BPF headers; none of the
properties proved below depend on the particular numbers, only on the
relevant ones being pairwise distinct. -/

def AID_ROOT : Nat := 0
def AID_SYSTEM : Nat := 1000
def AID_CLAT : Nat := 1029
def AID_DNS : Nat := 1051
def PER_USER_RANGE : Nat := 100000

/-- The "update device stats" permission bit tested by
`hasUpdateDeviceStatsPermission`.  Modelled from the spec: the exact bit
value lives in a BPF header outside the examined sources; the proofs
only use that it is nonzero. -/
def BPF_PERMISSION_UPDATE_DEVICE_STATS : Nat := 2

def EPERM : Nat := 1
def EINVAL : Nat := 22
def EMFILE : Nat := 24
def EPROTONOSUPPORT : Nat := 93
def EAFNOSUPPORT : Nat := 97

def AF_INET : Nat := 2
def AF_INET6 : Nat := 10
def IPPROTO_TCP : Nat := 6
def IPPROTO_UDP : Nat := 17

/-- Selector values stored in the configuration map
(`CURRENT_STATS_MAP_CONFIGURATION_KEY`).  Modelled from the spec: two
recognized selectors choosing counting map A or B. -/
def SELECT_MAP_A : Nat := 0

def SELECT_MAP_B : Nat := 1

/-- `PER_UID_STATS_ENTRIES_LIMIT` from BpfHandler.cpp line 42. -/
def PER_UID_STATS_ENTRIES_LIMIT : Nat := 500

/-! ## Data model -/

/-- Value stored in the cookie-tag (attribution) map: `{uid, tag}`
(`UidTagValue` in the BPF headers; both fields are `uint32_t`). -/
structure UidTagValue where
  uid : Nat
  tag : Nat
deriving DecidableEq, Repr

/-- Key of the stats (counting) maps.  `tagSocket`'s quota scan only
reads the `uid` field; the remaining fields are carried for shape
fidelity. -/
structure StatsKey where
  uid : Nat
  tag : Nat
  counterSet : Nat
  ifaceIndex : Nat
deriving DecidableEq, Repr

/-- The attribution map contents: socket cookie to charge key. -/
def CookieTagMap : Type := Nat → Option UidTagValue

/-- The persistent state read by one `tagSocket` / `untagSocket` call:
validity of the attribution map, the attribution map contents, the
uid-permission table (a failed `readValue` — entry absent or map
unusable — is `none`), the outcome of reading the configuration cell,
the outcome of iterating each stats map (the list of keys seen, or the
error code of a failed iteration), and the two quota limits
(`mPerUidStatsEntriesLimit`, `mTotalUidStatsEntriesLimit`). -/
structure BpfHandlerState where
  cookieTagMapValid : Bool
  cookieTagMap : CookieTagMap
  uidPermissionMap : Nat → Option Nat
  configurationRead : Except Nat Nat
  statsMapA : Except Nat (List StatsKey)
  statsMapB : Except Nat (List StatsKey)
  perUidStatsEntriesLimit : Nat
  totalUidStatsEntriesLimit : Nat

/-- Per-call facts about the socket named by the file descriptor:
the result of `getsockopt(SO_DOMAIN)` and `getsockopt(SO_PROTOCOL)`
(errno on failure), the kernel cookie returned by `getSocketCookie`
(0 means the lookup failed) together with the errno it left, and the
outcome of the single `writeValue` upsert (`none` = success). -/
structure SocketInfo where
  domainRes : Except Nat Nat
  protoRes : Except Nat Nat
  cookie : Nat
  cookieErrno : Nat
  writeErr : Option Nat

/-! ## Operations, translated from BpfHandler.cpp -/

/-- `BpfHandler::hasUpdateDeviceStatsPermission` (lines 200-209):
normalize the uid modulo `PER_USER_RANGE`, return true if the
permission lookup succeeded and has the update-device-stats bit, else
fall back to the fixed trusted-identity list. -/
def isTrustedAppId (appId : Nat) : Bool :=
  decide (appId = AID_ROOT ∨ appId = AID_SYSTEM ∨ appId = AID_DNS)

def hasUpdateDeviceStatsPermission (st : BpfHandlerState) (uid : Nat) : Bool :=
  match st.uidPermissionMap (uid % PER_USER_RANGE) with
  | some permission =>
      if permission &&& BPF_PERMISSION_UPDATE_DEVICE_STATS ≠ 0 then true
      else isTrustedAppId (uid % PER_USER_RANGE)
  | none => isTrustedAppId (uid % PER_USER_RANGE)

/-- The `countUidStatsEntries` lambda (lines 266-274): fold over the
scanned keys accumulating `(totalEntryCount, perUidEntryCount)`. -/
def countUidStatsEntries (chargeUid : Nat) (keys : List StatsKey) : Nat × Nat :=
  keys.foldl
    (fun acc key =>
      (acc.1 + 1, if key.uid = chargeUid then acc.2 + 1 else acc.2))
    (0, 0)

/-- Upsert semantics of `mCookieTagMap.writeValue(cookie, v, BPF_ANY)`.
Modelled from the spec: `BpfMap::writeValue` is not among the examined
sources; §4.3 gives it insert-or-update semantics and §6 allows the
error of an internal map operation to propagate, so a per-call oracle
(`err`) decides success, and a failed write leaves the map unchanged. -/
def writeValue (m : CookieTagMap) (cookie : Nat) (v : UidTagValue)
    (err : Option Nat) : Except Nat CookieTagMap :=
  match err with
  | some e => .error e
  | none => .ok (fun c => if c = cookie then some v else m c)

/-- Removal semantics of `mCookieTagMap.deleteValue(cookie)`.  Modelled
from the spec: `BpfMap::deleteValue` is not among the examined sources;
§4.3 specifies that the entry is removed unconditionally and that
removing a non-existent key is not an error (idempotent), so the
modelled operation always succeeds. -/
def deleteValue (m : CookieTagMap) (cookie : Nat) : Except Nat CookieTagMap :=
  .ok (fun c => if c = cookie then none else m c)

/-- `BpfHandler::tagSocket` (lines 211-315), returning the C `int`
result together with the attribution map left behind by the call. -/
def tagSocket (st : BpfHandlerState) (s : SocketInfo)
    (tag chargeUid realUid : Nat) : Int × CookieTagMap :=
  if st.cookieTagMapValid = false then (-(EPERM : Int), st.cookieTagMap)
  else if chargeUid ≠ realUid ∧ hasUpdateDeviceStatsPermission st realUid = false then
    (-(EPERM : Int), st.cookieTagMap)
  else if chargeUid = AID_CLAT then (-(EPERM : Int), st.cookieTagMap)
  else
    match s.domainRes with
    | .error e => (-(e : Int), st.cookieTagMap)
    | .ok socketFamily =>
      if socketFamily ≠ AF_INET ∧ socketFamily ≠ AF_INET6 then
        (-(EAFNOSUPPORT : Int), st.cookieTagMap)
      else
        match s.protoRes with
        | .error e => (-(e : Int), st.cookieTagMap)
        | .ok socketProto =>
          if socketProto ≠ IPPROTO_UDP ∧ socketProto ≠ IPPROTO_TCP then
            (-(EPROTONOSUPPORT : Int), st.cookieTagMap)
          else if s.cookie = 0 then (-(s.cookieErrno : Int), st.cookieTagMap)
          else
            match st.configurationRead with
            | .error e => (-(e : Int), st.cookieTagMap)
            | .ok configuration =>
              if configuration ≠ SELECT_MAP_A ∧ configuration ≠ SELECT_MAP_B then
                (-(EINVAL : Int), st.cookieTagMap)
              else
                match (if configuration = SELECT_MAP_A then st.statsMapA else st.statsMapB) with
                | .error e => (-(e : Int), st.cookieTagMap)
                | .ok keys =>
                  if (countUidStatsEntries chargeUid keys).1 > st.totalUidStatsEntriesLimit ∨
                      (countUidStatsEntries chargeUid keys).2 > st.perUidStatsEntriesLimit then
                    (-(EMFILE : Int), st.cookieTagMap)
                  else
                    match writeValue st.cookieTagMap s.cookie
                        { uid := chargeUid, tag := tag } s.writeErr with
                    | .error e => (-(e : Int), st.cookieTagMap)
                    | .ok m => (0, m)

/-- `BpfHandler::untagSocket` (lines 317-329). -/
def untagSocket (st : BpfHandlerState) (s : SocketInfo) : Int × CookieTagMap :=
  if s.cookie = 0 then (-(s.cookieErrno : Int), st.cookieTagMap)
  else if st.cookieTagMapValid = false then (-(EPERM : Int), st.cookieTagMap)
  else
    match deleteValue st.cookieTagMap s.cookie with
    | .error e => (-(e : Int), st.cookieTagMap)
    | .ok m => (0, m)

/-! ## Platform / kernel support rules of `initPrograms` (lines 72-116) -/

/-- Android platform tiers in increasing order; `S` stands for every
release below the minimum tier T that this code supports. -/
inductive PlatformTier
  | S
  | T
  | U
  | V
deriving DecidableEq, Repr

def PlatformTier.rank : PlatformTier → Nat
  | .S => 0
  | .T => 1
  | .U => 2
  | .V => 3

/-- The environment facts queried by `initPrograms`: the platform tier
(`modules::sdklevel::IsAtLeast*`), the kernel version packed as in the
BPF headers' `KVER`, kernel and userspace bitness, and the `cg2_path`
argument (`none` models a NULL pointer). -/
structure PlatformEnv where
  tier : PlatformTier
  kver : Nat
  kernel32Bit : Bool
  userspace32Bit : Bool
  cg2Path : Option String

/-- `KVER(a, b, c)` packing from the BPF headers. -/
def KVER (a b c : Nat) : Nat := 65536 * a + 256 * b + c

def isAtLeastKernelVersion (env : PlatformEnv) (a b c : Nat) : Bool :=
  decide (KVER a b c ≤ env.kver)

def isAtLeastT (env : PlatformEnv) : Bool := decide (PlatformTier.rank .T ≤ env.tier.rank)

def isAtLeastU (env : PlatformEnv) : Bool := decide (PlatformTier.rank .U ≤ env.tier.rank)

def isAtLeastV (env : PlatformEnv) : Bool := decide (PlatformTier.rank .V ≤ env.tier.rank)

/-- The support verdict of `initPrograms` (lines 73-116): `some reason`
when one of the eight unsupported-rules fires (the source `return
Status(...)` statements, in source order; the two rules nested under
`IsAtLeastV()` appear with the tier conjunct made explicit), `none` when
control reaches the attachment phase. -/
def initProgramsVerdict (env : PlatformEnv) : Option String :=
  if env.cg2Path.isNone then some "cg2_path is NULL"
  else if !isAtLeastT env then some "S- platform is unsupported"
  else if !isAtLeastKernelVersion env 4 9 0 then
    some "kernel version < 4.9.0 is unsupported"
  else if isAtLeastU env && !isAtLeastKernelVersion env 4 14 0 then
    some "U+ platform with kernel version < 4.14.0 is unsupported"
  else if isAtLeastV env && !isAtLeastKernelVersion env 4 19 0 then
    some "V+ platform with kernel version < 4.19.0 is unsupported"
  else if isAtLeastV env && (env.kernel32Bit && isAtLeastKernelVersion env 5 16 0) then
    some "V+ platform with 32 bit kernel, version >= 5.16.0 is unsupported"
  else if env.userspace32Bit && isAtLeastKernelVersion env 6 2 0 then
    some "32 bit userspace with Kernel version >= 6.2.0 is unsupported"
  else if isAtLeastU env && (env.cg2Path != some "/sys/fs/cgroup") then
    some "U+ platform with cg2_path != /sys/fs/cgroup is unsupported"
  else none

/-- The same eight rules as an ordered list of (guard, reason) pairs,
used to state that `initProgramsVerdict` returns the reason of the
first rule that fires. -/
def supportRules : List ((PlatformEnv → Bool) × String) :=
  [ (fun env => env.cg2Path.isNone, "cg2_path is NULL"),
    (fun env => !isAtLeastT env, "S- platform is unsupported"),
    (fun env => !isAtLeastKernelVersion env 4 9 0,
      "kernel version < 4.9.0 is unsupported"),
    (fun env => isAtLeastU env && !isAtLeastKernelVersion env 4 14 0,
      "U+ platform with kernel version < 4.14.0 is unsupported"),
    (fun env => isAtLeastV env && !isAtLeastKernelVersion env 4 19 0,
      "V+ platform with kernel version < 4.19.0 is unsupported"),
    (fun env => isAtLeastV env && (env.kernel32Bit && isAtLeastKernelVersion env 5 16 0),
      "V+ platform with 32 bit kernel, version >= 5.16.0 is unsupported"),
    (fun env => env.userspace32Bit && isAtLeastKernelVersion env 6 2 0,
      "32 bit userspace with Kernel version >= 6.2.0 is unsupported"),
    (fun env => isAtLeastU env && (env.cg2Path != some "/sys/fs/cgroup"),
      "U+ platform with cg2_path != /sys/fs/cgroup is unsupported") ]

/-- Tier V, kernel 4.19.0, 32-bit kernel and userspace, canonical
cgroup2 path: the configuration the spec singles out as supported. -/
def envV419k32 : PlatformEnv :=
  { tier := .V
    kver := KVER 4 19 0
    kernel32Bit := true
    userspace32Bit := true
    cg2Path := some "/sys/fs/cgroup" }

/-! ## Well-formedness: POSIX errno values reported on failure are
strictly positive -/

def ExceptPos {α : Type} (r : Except Nat α) : Prop :=
  ∀ e, r = .error e → 0 < e

def SocketInfo.WF (s : SocketInfo) : Prop :=
  0 < s.cookieErrno ∧ ExceptPos s.domainRes ∧ ExceptPos s.protoRes ∧
    (∀ e, s.writeErr = some e → 0 < e)

def BpfHandlerState.WF (st : BpfHandlerState) : Prop :=
  ExceptPos st.configurationRead ∧ ExceptPos st.statsMapA ∧ ExceptPos st.statsMapB

/-! ## Concrete environments used for witnesses and boundary checks -/

/-- A stats-map key charged to `uid` (tag/counterSet/ifaceIndex zero). -/
def statsEntry (uid : Nat) : StatsKey :=
  { uid := uid, tag := 0, counterSet := 0, ifaceIndex := 0 }

/-- A fully usable handler state whose selected counting map (A) holds
`n` entries charged to uid 1234, with the default per-uid limit 500 and
a large total limit. -/
def stBoundary (n : Nat) : BpfHandlerState :=
  { cookieTagMapValid := true
    cookieTagMap := fun _ => none
    uidPermissionMap := fun _ => none
    configurationRead := .ok SELECT_MAP_A
    statsMapA := .ok (List.replicate n (statsEntry 1234))
    statsMapB := .ok []
    perUidStatsEntriesLimit := PER_UID_STATS_ENTRIES_LIMIT
    totalUidStatsEntriesLimit := 10000 }

/-- A TCP/IPv4 socket with a resolvable cookie and a succeeding write. -/
def sOk : SocketInfo :=
  { domainRes := .ok AF_INET
    protoRes := .ok IPPROTO_TCP
    cookie := 7
    cookieErrno := 1
    writeErr := none }

/-- A socket whose cookie lookup failed (cookie 0, errno ENOENT=2). -/
def sNoCookie : SocketInfo :=
  { domainRes := .ok AF_INET
    protoRes := .ok IPPROTO_TCP
    cookie := 0
    cookieErrno := 2
    writeErr := none }

/-- A handler state whose cookie-tag map failed to initialize. -/
def stInvalid : BpfHandlerState :=
  { stBoundary 0 with cookieTagMapValid := false }

/-- A handler state whose configuration cell holds the unrecognized
selector value 2. -/
def stUnknownCfg : BpfHandlerState :=
  { stBoundary 0 with configurationRead := .ok 2 }

/-! ## Helper lemmas -/

theorem countUidStatsEntries_go (cu : Nat) (keys : List StatsKey) (a b : Nat) :
    keys.foldl
        (fun acc key => (acc.1 + 1, if key.uid = cu then acc.2 + 1 else acc.2)) (a, b)
      = (a + keys.length, b + keys.countP (fun k => decide (k.uid = cu))) := by
  induction keys generalizing a b with
  | nil => simp
  | cons k ks ih =>
    simp only [List.foldl_cons, List.length_cons, List.countP_cons, ih]
    split <;> simp_all <;> omega

theorem countUidStatsEntries_eq (cu : Nat) (keys : List StatsKey) :
    countUidStatsEntries cu keys
      = (keys.length, keys.countP (fun k => decide (k.uid = cu))) := by
  unfold countUidStatsEntries
  simpa using countUidStatsEntries_go cu keys 0 0

theorem writeValue_error (m : CookieTagMap) (k : Nat) (v : UidTagValue)
    (err : Option Nat) (e : Nat) (h : writeValue m k v err = .error e) :
    err = some e := by
  unfold writeValue at h
  cases err <;> simp_all

theorem writeValue_ok (m : CookieTagMap) (k : Nat) (v : UidTagValue)
    (err : Option Nat) (m' : CookieTagMap) (h : writeValue m k v err = .ok m') :
    m' = fun c => if c = k then some v else m c := by
  unfold writeValue at h
  cases err <;> simp_all

theorem deleteValue_ok (m : CookieTagMap) (k : Nat) (m' : CookieTagMap)
    (h : deleteValue m k = .ok m') :
    m' = fun c => if c = k then none else m c := by
  unfold deleteValue at h
  cases h
  rfl

theorem deleteValue_not_error (m : CookieTagMap) (k : Nat) (e : Nat) :
    deleteValue m k ≠ .error e := by
  unfold deleteValue
  simp

theorem pairCode_le (m : CookieTagMap) (e : Nat) : ((-(e : Int), m)).1 ≤ 0 := by
  simp

theorem pairCode_ne (m : CookieTagMap) (e : Nat) (he : 0 < e) :
    ((-(e : Int), m)).1 ≠ 0 := by
  simp
  omega

/-- Every run of `tagSocket` either leaves the attribution map untouched
or returns 0 having upserted the (cookie, charge-key) entry. -/
theorem tagSocket_mapShape (st : BpfHandlerState) (s : SocketInfo) (tg cu ru : Nat) :
    (tagSocket st s tg cu ru).2 = st.cookieTagMap ∨
      ((tagSocket st s tg cu ru).1 = 0 ∧ s.cookie ≠ 0 ∧
        (tagSocket st s tg cu ru).2 =
          fun c => if c = s.cookie then some { uid := cu, tag := tg } else st.cookieTagMap c) := by
  unfold tagSocket writeValue
  repeat' split
  all_goals first
    | exact Or.inl rfl
    | (rename_i m heq
       rcases hw : s.writeErr with _ | e
       · rw [hw] at heq
         cases heq
         exact Or.inr ⟨rfl, by assumption, rfl⟩
       · rw [hw] at heq
         cases heq)

/-- Reduction of `tagSocket` to the quota test once every earlier check
passes and the upsert itself succeeds. -/
theorem tagSocket_quota_iff (st : BpfHandlerState) (s : SocketInfo)
    (tg cu ru fam proto cfg : Nat) (keys : List StatsKey)
    (hvalid : st.cookieTagMapValid = true)
    (hperm : cu = ru ∨ hasUpdateDeviceStatsPermission st ru = true)
    (hclat : cu ≠ AID_CLAT)
    (hdom : s.domainRes = .ok fam) (hfam : fam = AF_INET ∨ fam = AF_INET6)
    (hpro : s.protoRes = .ok proto) (hproto : proto = IPPROTO_UDP ∨ proto = IPPROTO_TCP)
    (hcookie : s.cookie ≠ 0)
    (hcfg : st.configurationRead = .ok cfg)
    (hcfgv : cfg = SELECT_MAP_A ∨ cfg = SELECT_MAP_B)
    (hsel : (if cfg = SELECT_MAP_A then st.statsMapA else st.statsMapB) = .ok keys)
    (hwrite : s.writeErr = none) :
    ((tagSocket st s tg cu ru).1 = -(EMFILE : Int) ↔
      keys.length > st.totalUidStatsEntriesLimit ∨
      keys.countP (fun k => decide (k.uid = cu)) > st.perUidStatsEntriesLimit) := by
  have h1 : ¬ (st.cookieTagMapValid = false) := by simp [hvalid]
  have h2 : ¬ (cu ≠ ru ∧ hasUpdateDeviceStatsPermission st ru = false) := by
    rcases hperm with h | h <;> simp [h]
  have h4 : ¬ (fam ≠ AF_INET ∧ fam ≠ AF_INET6) := by
    rcases hfam with h | h <;> simp [h]
  have h5 : ¬ (proto ≠ IPPROTO_UDP ∧ proto ≠ IPPROTO_TCP) := by
    rcases hproto with h | h <;> simp [h]
  have h6 : ¬ (cfg ≠ SELECT_MAP_A ∧ cfg ≠ SELECT_MAP_B) := by
    rcases hcfgv with h | h <;> simp [h]
  unfold tagSocket writeValue
  simp only [hdom, hpro, hcfg, hwrite, hsel, if_neg h1, if_neg h2, if_neg hclat,
    if_neg h4, if_neg h5, if_neg hcookie, if_neg h6, countUidStatsEntries_eq]
  by_cases hc : keys.length > st.totalUidStatsEntriesLimit ∨
      keys.countP (fun k => decide (k.uid = cu)) > st.perUidStatsEntriesLimit
  · rw [if_pos hc]
    exact iff_of_true rfl hc
  · rw [if_neg hc]
    refine iff_of_false (fun h0 => ?_) hc
    simp only [EMFILE] at h0
    omega

/-- An unrecognized configuration value makes `tagSocket` return
`-EINVAL` without touching the attribution map. -/
theorem tagSocket_unknown_config (st : BpfHandlerState) (s : SocketInfo)
    (tg cu ru fam proto cfg : Nat)
    (hvalid : st.cookieTagMapValid = true)
    (hperm : cu = ru ∨ hasUpdateDeviceStatsPermission st ru = true)
    (hclat : cu ≠ AID_CLAT)
    (hdom : s.domainRes = .ok fam) (hfam : fam = AF_INET ∨ fam = AF_INET6)
    (hpro : s.protoRes = .ok proto) (hproto : proto = IPPROTO_UDP ∨ proto = IPPROTO_TCP)
    (hcookie : s.cookie ≠ 0)
    (hcfg : st.configurationRead = .ok cfg)
    (hv1 : cfg ≠ SELECT_MAP_A) (hv2 : cfg ≠ SELECT_MAP_B) :
    tagSocket st s tg cu ru = (-(EINVAL : Int), st.cookieTagMap) := by
  have h1 : ¬ (st.cookieTagMapValid = false) := by simp [hvalid]
  have h2 : ¬ (cu ≠ ru ∧ hasUpdateDeviceStatsPermission st ru = false) := by
    rcases hperm with h | h <;> simp [h]
  have h4 : ¬ (fam ≠ AF_INET ∧ fam ≠ AF_INET6) := by
    rcases hfam with h | h <;> simp [h]
  have h5 : ¬ (proto ≠ IPPROTO_UDP ∧ proto ≠ IPPROTO_TCP) := by
    rcases hproto with h | h <;> simp [h]
  unfold tagSocket
  simp only [hdom, hpro, hcfg, if_neg h1, if_neg h2, if_neg hclat,
    if_neg h4, if_neg h5, if_neg hcookie]
  rw [if_pos ⟨hv1, hv2⟩]

/-- When the configuration selects map A, the contents of stats map B
are irrelevant to `tagSocket`. -/
theorem tagSocket_mapA_ignores_mapB (st : BpfHandlerState) (B' : Except Nat (List StatsKey))
    (s : SocketInfo) (tg cu ru : Nat)
    (hcfg : st.configurationRead = .ok SELECT_MAP_A) :
    tagSocket { st with statsMapB := B' } s tg cu ru = tagSocket st s tg cu ru := by
  unfold tagSocket writeValue hasUpdateDeviceStatsPermission
  simp [hcfg]

/-- When the configuration selects map B, the contents of stats map A
are irrelevant to `tagSocket`. -/
theorem tagSocket_mapB_ignores_mapA (st : BpfHandlerState) (A' : Except Nat (List StatsKey))
    (s : SocketInfo) (tg cu ru : Nat)
    (hcfg : st.configurationRead = .ok SELECT_MAP_B) :
    tagSocket { st with statsMapA := A' } s tg cu ru = tagSocket st s tg cu ru := by
  unfold tagSocket writeValue hasUpdateDeviceStatsPermission
  simp [hcfg, SELECT_MAP_A, SELECT_MAP_B]

theorem sOk_WF : sOk.WF := by
  refine ⟨by decide, ?_, ?_, ?_⟩ <;> intro e h <;> simp [sOk] at h

theorem sNoCookie_WF : sNoCookie.WF := by
  refine ⟨by decide, ?_, ?_, ?_⟩ <;> intro e h <;> simp [sNoCookie] at h

theorem stBoundary_WF (n : Nat) : (stBoundary n).WF := by
  refine ⟨?_, ?_, ?_⟩ <;> intro e h <;> simp [stBoundary] at h

/-! ## Claims -/

/-- Claim C1: when the socket cookie resolves (nonzero) and the
attribution map is usable, `untagSocket` returns 0 even when the map
holds no entry for that cookie — removing a non-existent key is not an
error. -/
theorem untagSocket_nonexistent_cookie_succeeds (st : BpfHandlerState) (s : SocketInfo)
    (hcookie : s.cookie ≠ 0) (hvalid : st.cookieTagMapValid = true)
    (hmiss : st.cookieTagMap s.cookie = none) :
    (untagSocket st s).1 = 0 := by
  clear hmiss
  unfold untagSocket deleteValue
  simp [hcookie, hvalid]

/-- Witness for C1: a usable state with an empty attribution map and a
socket with cookie 7. -/
theorem untagSocket_nonexistent_cookie_succeeds_witness :
    (stBoundary 0).cookieTagMap sOk.cookie = none ∧ (untagSocket (stBoundary 0) sOk).1 = 0 :=
  ⟨rfl, untagSocket_nonexistent_cookie_succeeds (stBoundary 0) sOk (by decide) rfl rfl⟩

/-- Claim C2: for every platform/kernel environment, the support verdict
of `initPrograms` is the reason of the first rule (in the fixed source
order of the eight rules) whose guard holds, and no verdict when none
fires; in particular the tier-V, kernel-4.19.0, 32-bit-kernel
environment passes all eight rules. -/
theorem initPrograms_first_failing_rule :
    (∀ env : PlatformEnv,
      initProgramsVerdict env = (supportRules.find? (fun r => r.1 env)).map Prod.snd) ∧
    initProgramsVerdict envV419k32 = none := by
  refine ⟨fun env => ?_, by decide⟩
  unfold initProgramsVerdict supportRules
  simp only [List.find?]
  repeat' split <;> simp_all

set_option maxRecDepth 100000 in
/-- Claim C3 counterexample: with `perUidLimit = 500` and exactly 500
stats-map entries charged to uid 1234, the next (501st) tag attempt is
NOT denied: it returns 0, not `-EMFILE`, because the check is strictly
`perUidEntryCount > 500`. -/
theorem tagSocket_at_per_uid_limit_succeeds :
    (stBoundary 500).perUidStatsEntriesLimit = 500 ∧
    (stBoundary 500).statsMapA = .ok (List.replicate 500 (statsEntry 1234)) ∧
    (tagSocket (stBoundary 500) sOk 42 1234 1234).1 = 0 ∧
    (tagSocket (stBoundary 500) sOk 42 1234 1234).1 ≠ -(EMFILE : Int) :=
  ⟨rfl, rfl, by decide, by decide⟩

set_option maxRecDepth 100000 in
/-- Claim C3 (amended): a tag request that reaches the quota check is
denied with `-EMFILE` exactly when the scan finds strictly more than
`totalLimit` entries in total or strictly more than `perUidLimit`
entries for the charge uid; at the boundary with `perUidLimit = 500`, a
uid with exactly 500 existing entries still succeeds, and one with 501
entries is denied. -/
theorem tagSocket_quota_strictly_above_limit :
    (∀ (st : BpfHandlerState) (s : SocketInfo) (tg cu ru fam proto cfg : Nat)
        (keys : List StatsKey),
      st.cookieTagMapValid = true →
      (cu = ru ∨ hasUpdateDeviceStatsPermission st ru = true) →
      cu ≠ AID_CLAT →
      s.domainRes = .ok fam → (fam = AF_INET ∨ fam = AF_INET6) →
      s.protoRes = .ok proto → (proto = IPPROTO_UDP ∨ proto = IPPROTO_TCP) →
      s.cookie ≠ 0 →
      st.configurationRead = .ok cfg → (cfg = SELECT_MAP_A ∨ cfg = SELECT_MAP_B) →
      (if cfg = SELECT_MAP_A then st.statsMapA else st.statsMapB) = .ok keys →
      s.writeErr = none →
      ((tagSocket st s tg cu ru).1 = -(EMFILE : Int) ↔
        keys.length > st.totalUidStatsEntriesLimit ∨
        keys.countP (fun k => decide (k.uid = cu)) > st.perUidStatsEntriesLimit)) ∧
    (tagSocket (stBoundary 500) sOk 42 1234 1234).1 = 0 ∧
    (tagSocket (stBoundary 501) sOk 42 1234 1234).1 = -(EMFILE : Int) :=
  ⟨tagSocket_quota_iff, by decide, by decide⟩

set_option maxRecDepth 100000 in
/-- Witness for C3 (amended): the quota iff applied to the concrete
501-entry state yields the `-EMFILE` denial. -/
theorem tagSocket_quota_strictly_above_limit_witness :
    (tagSocket (stBoundary 501) sOk 42 1234 1234).1 = -(EMFILE : Int) :=
  (tagSocket_quota_strictly_above_limit.1 (stBoundary 501) sOk 42 1234 1234 AF_INET
      IPPROTO_TCP SELECT_MAP_A (List.replicate 501 (statsEntry 1234)) rfl (Or.inl rfl)
      (by decide) rfl (Or.inl rfl) rfl (Or.inr rfl) (by decide) rfl (Or.inl rfl) rfl
      rfl).mpr (by decide)

/-- Claim C4: whenever `chargeUid = AID_CLAT`, `tagSocket` returns
`-EPERM` and leaves the attribution map unchanged, for every state and
every caller — including a self-charging caller with
`realUid = AID_CLAT`. -/
theorem tagSocket_clat_always_denied (st : BpfHandlerState) (s : SocketInfo) (tg ru : Nat) :
    (tagSocket st s tg AID_CLAT ru).1 = -(EPERM : Int) ∧
      (tagSocket st s tg AID_CLAT ru).2 = st.cookieTagMap := by
  unfold tagSocket
  split_ifs <;> simp_all

/-- Claim C5: a self-charging tag call (`chargeUid = realUid`) gives the
same outcome under any two permission tables: the delegation gate is
consulted only when the two uids differ. -/
theorem tagSocket_selfcharge_ignores_permission_table (st : BpfHandlerState)
    (p₁ p₂ : Nat → Option Nat) (s : SocketInfo) (tg u : Nat) :
    tagSocket { st with uidPermissionMap := p₁ } s tg u u
      = tagSocket { st with uidPermissionMap := p₂ } s tg u u := by
  unfold tagSocket
  simp

/-- Claim C6: `hasUpdateDeviceStatsPermission` returns true exactly when
the permission entry stored for `uid % PER_USER_RANGE` has the
update-device-stats bit, or that normalized id is root, system, or
dns. -/
theorem hasUpdateDeviceStatsPermission_iff (st : BpfHandlerState) (uid : Nat) :
    hasUpdateDeviceStatsPermission st uid = true ↔
      ((∃ v, st.uidPermissionMap (uid % PER_USER_RANGE) = some v ∧
          v &&& BPF_PERMISSION_UPDATE_DEVICE_STATS ≠ 0) ∨
        uid % PER_USER_RANGE = AID_ROOT ∨ uid % PER_USER_RANGE = AID_SYSTEM ∨
        uid % PER_USER_RANGE = AID_DNS) := by
  unfold hasUpdateDeviceStatsPermission isTrustedAppId
  cases h : st.uidPermissionMap (uid % PER_USER_RANGE) <;> simp [h]

/-- Claim C7: a configuration value that is neither selector makes
`tagSocket` return `-EINVAL` with the map untouched; when the value
selects map A the scan ignores map B entirely, and when it selects map
B the scan ignores map A. -/
theorem tagSocket_configuration_selection :
    (∀ (st : BpfHandlerState) (s : SocketInfo) (tg cu ru fam proto cfg : Nat),
      st.cookieTagMapValid = true →
      (cu = ru ∨ hasUpdateDeviceStatsPermission st ru = true) →
      cu ≠ AID_CLAT →
      s.domainRes = .ok fam → (fam = AF_INET ∨ fam = AF_INET6) →
      s.protoRes = .ok proto → (proto = IPPROTO_UDP ∨ proto = IPPROTO_TCP) →
      s.cookie ≠ 0 →
      st.configurationRead = .ok cfg → cfg ≠ SELECT_MAP_A → cfg ≠ SELECT_MAP_B →
      tagSocket st s tg cu ru = (-(EINVAL : Int), st.cookieTagMap)) ∧
    (∀ (st : BpfHandlerState) (B' : Except Nat (List StatsKey)) (s : SocketInfo)
        (tg cu ru : Nat),
      st.configurationRead = .ok SELECT_MAP_A →
      tagSocket { st with statsMapB := B' } s tg cu ru = tagSocket st s tg cu ru) ∧
    (∀ (st : BpfHandlerState) (A' : Except Nat (List StatsKey)) (s : SocketInfo)
        (tg cu ru : Nat),
      st.configurationRead = .ok SELECT_MAP_B →
      tagSocket { st with statsMapA := A' } s tg cu ru = tagSocket st s tg cu ru) :=
  ⟨tagSocket_unknown_config, tagSocket_mapA_ignores_mapB, tagSocket_mapB_ignores_mapA⟩

/-- Witness for C7: the concrete state whose configuration cell holds
the unrecognized value 2 is denied with `-EINVAL`. -/
theorem tagSocket_configuration_selection_witness :
    stUnknownCfg.configurationRead = .ok 2 ∧
      tagSocket stUnknownCfg sOk 42 1234 1234 = (-(EINVAL : Int), stUnknownCfg.cookieTagMap) :=
  ⟨rfl, tagSocket_configuration_selection.1 stUnknownCfg sOk 42 1234 1234 AF_INET IPPROTO_TCP 2
    rfl (Or.inl rfl) (by decide) rfl (Or.inl rfl) rfl (Or.inr rfl) (by decide) rfl
    (by decide) (by decide)⟩

/-- Claim C8: under POSIX errno conventions (positive error values),
`tagSocket` and `untagSocket` never return a positive value, and return
0 only on the success path: for `tagSocket` the cookie was nonzero and
the entry was upserted, for `untagSocket` the cookie was nonzero and the
entry removed; every failure path, the zero-cookie one included, yields
a strictly negative code. -/
theorem tagSocket_untagSocket_result_codes (st : BpfHandlerState) (s : SocketInfo)
    (hs : s.WF) (hst : st.WF) (tg cu ru : Nat) :
    ((tagSocket st s tg cu ru).1 ≤ 0 ∧
      ((tagSocket st s tg cu ru).1 = 0 →
        s.cookie ≠ 0 ∧ (tagSocket st s tg cu ru).2 s.cookie = some { uid := cu, tag := tg })) ∧
    ((untagSocket st s).1 ≤ 0 ∧
      ((untagSocket st s).1 = 0 →
        s.cookie ≠ 0 ∧ (untagSocket st s).2 s.cookie = none)) := by
  obtain ⟨hce, hdom, hpro, hwr⟩ := hs
  obtain ⟨hconf, hA, hB⟩ := hst
  constructor
  · unfold tagSocket
    repeat' split
    all_goals first
      | exact ⟨pairCode_le _ _, fun h0 => absurd h0 (pairCode_ne _ _ (by decide))⟩
      | exact ⟨pairCode_le _ _, fun h0 => absurd h0 (pairCode_ne _ _ hce)⟩
      | (rename_i e heq
         have hpos : 0 < e := by
           first
             | exact hdom e heq
             | exact hpro e heq
             | exact hconf e heq
             | (split at heq
                · exact hA e heq
                · exact hB e heq)
             | exact hwr e (writeValue_error _ _ _ _ _ heq)
         exact ⟨pairCode_le _ _, fun h0 => absurd h0 (pairCode_ne _ _ hpos)⟩)
      | (rename_i m heq
         rw [writeValue_ok _ _ _ _ _ heq]
         exact ⟨le_refl 0, fun _ => ⟨by assumption, by simp⟩⟩)
  · unfold untagSocket
    repeat' split
    all_goals first
      | exact ⟨pairCode_le _ _, fun h0 => absurd h0 (pairCode_ne _ _ (by decide))⟩
      | exact ⟨pairCode_le _ _, fun h0 => absurd h0 (pairCode_ne _ _ hce)⟩
      | (rename_i e heq
         exact absurd heq (deleteValue_not_error _ _ _))
      | (rename_i m heq
         rw [deleteValue_ok _ _ _ heq]
         exact ⟨le_refl 0, fun _ => ⟨by assumption, by simp⟩⟩)

/-- Witness for C8: the result-code bounds applied to a concrete state
and a socket whose cookie lookup failed. -/
theorem tagSocket_untagSocket_result_codes_witness :
    (tagSocket (stBoundary 0) sNoCookie 42 1234 1234).1 ≤ 0 ∧
      (untagSocket (stBoundary 0) sNoCookie).1 ≤ 0 :=
  ⟨(tagSocket_untagSocket_result_codes (stBoundary 0) sNoCookie sNoCookie_WF
      (stBoundary_WF 0) 42 1234 1234).1.1,
    (tagSocket_untagSocket_result_codes (stBoundary 0) sNoCookie sNoCookie_WF
      (stBoundary_WF 0) 42 1234 1234).2.1⟩

/-- Claim C9: whenever `tagSocket` returns a nonzero result, the
attribution map it leaves behind is exactly the one it started from —
the single upsert happens only after every check has passed. -/
theorem tagSocket_failure_preserves_map (st : BpfHandlerState) (s : SocketInfo)
    (tg cu ru : Nat) (h : (tagSocket st s tg cu ru).1 ≠ 0) :
    (tagSocket st s tg cu ru).2 = st.cookieTagMap := by
  rcases tagSocket_mapShape st s tg cu ru with h1 | ⟨h0, _, _⟩
  · exact h1
  · exact absurd h0 h

/-- Witness for C9: a tag call denied for an unusable attribution map
leaves the map untouched. -/
theorem tagSocket_failure_preserves_map_witness :
    (tagSocket stInvalid sOk 42 1234 1234).1 ≠ 0 ∧
      (tagSocket stInvalid sOk 42 1234 1234).2 = stInvalid.cookieTagMap :=
  ⟨by decide, tagSocket_failure_preserves_map stInvalid sOk 42 1234 1234 (by decide)⟩

/-- Claim C10: a caller whose normalized app id is root, system, or dns
is granted delegation by `hasUpdateDeviceStatsPermission` in every
state — in particular when the permission lookup fails (entry absent or
map unusable), since the trusted-identity list is checked independently
of the lookup. -/
theorem hasUpdateDeviceStatsPermission_trusted_ids (st : BpfHandlerState) (uid : Nat)
    (h : uid % PER_USER_RANGE = AID_ROOT ∨ uid % PER_USER_RANGE = AID_SYSTEM ∨
      uid % PER_USER_RANGE = AID_DNS) :
    hasUpdateDeviceStatsPermission st uid = true := by
  unfold hasUpdateDeviceStatsPermission isTrustedAppId
  cases hm : st.uidPermissionMap (uid % PER_USER_RANGE) <;> simp only [hm] <;>
    first
      | simpa using h
      | (split <;> simp [h])

/-- Witness for C10: uid 1000 (system) is granted delegation in the
concrete state whose permission lookup returns nothing. -/
theorem hasUpdateDeviceStatsPermission_trusted_ids_witness :
    (stBoundary 0).uidPermissionMap (1000 % PER_USER_RANGE) = none ∧
      hasUpdateDeviceStatsPermission (stBoundary 0) 1000 = true :=
  ⟨rfl, hasUpdateDeviceStatsPermission_trusted_ids (stBoundary 0) 1000 (by decide)⟩
